import Mathlib

/-!
Verification of the RTS-Engine simulation core against its specification.

The development shallowly embeds the Python sources of the repository
(`game/entities.py`, `game/map.py`, `game/engine.py`, `game/resources.py`):
Python float arithmetic is modelled as exact rational arithmetic over `ℚ`,
object mutation as explicit state passing, and `None` as `Option`.

Square roots: the source compares `((dx)**2 + (dy)**2) ** 0.5` against
nonnegative constant radii.  Over the reals, `Real.sqrt d2 < c` is (for
`0 ≤ d2`) equivalent to `0 < c ∧ d2 < c^2`; the embedding uses these exact
squared forms (`sqrtLt`, `sqrtLe`, `sqrtGt`) for every comparison, so no
irrational value has to be represented.  The one remaining use of an actual
square root, the per-tick movement step `(dx / dist) * speed`, is embedded
with `Rat.sqrt`, which agrees with the real square root exactly when the
squared distance is a perfect rational square (e.g. 3-4-5 configurations);
theorems about the landing point of a step are only ever instantiated at
such configurations.
-/

namespace RTS

/-- A unit's team, `"player"` or `"enemy"` in the source (`entities.py` line 179). -/
inductive Team where
  | player
  | enemy
deriving DecidableEq, Repr

/-- State of a `Unit` (`entities.py` lines 165-181): floating-point world
position, health, speed, optional movement destination, attack damage, team.
`attack_range = 50` is stored by `__init__` but the combat scan uses a local
constant 30, so the attribute is carried only for completeness. -/
structure UnitState where
  x : ℚ
  y : ℚ
  health : ℚ
  maxHealth : ℚ
  speed : ℚ
  targetPos : Option (ℚ × ℚ)
  attackDamage : ℚ
  attackRange : ℚ
  team : Team
  unitType : String
deriving DecidableEq, Repr

/-- `Unit.__init__` (`entities.py` lines 170-181): health 100, speed 2,
no destination, attack damage 10, attack range 50. -/
def UnitState.mk0 (x y : ℚ) (unitType : String) (team : Team) : UnitState :=
  { x := x, y := y, health := 100, maxHealth := 100, speed := 2,
    targetPos := none, attackDamage := 10, attackRange := 50,
    team := team, unitType := unitType }

/-- State of a `Building` (`entities.py` lines 59-73).  `hasResourceManager`
records whether `resource_manager` is `None` (falsy) or set (truthy). -/
structure BuildingState where
  x : ℚ
  y : ℚ
  width : ℚ
  height : ℚ
  buildingType : String
  health : ℚ
  maxHealth : ℚ
  resourceTimer : ℚ
  hasResourceManager : Bool
deriving DecidableEq, Repr, Inhabited

/-- `Building.__init__` (`entities.py` lines 60-73): footprint 128x128 for
Stonekeep / EnemyStonekeep, 256x32 for Stockpile, 64x64 otherwise;
health 100, resource timer 0. -/
def BuildingState.mk0 (x y : ℚ) (buildingType : String) (hasRM : Bool) : BuildingState :=
  { x := x, y := y,
    width := if buildingType = "Stonekeep" ∨ buildingType = "EnemyStonekeep" then 128
             else if buildingType = "Stockpile" then 256 else 64,
    height := if buildingType = "Stonekeep" ∨ buildingType = "EnemyStonekeep" then 128
              else if buildingType = "Stockpile" then 32 else 64,
    buildingType := buildingType, health := 100, maxHealth := 100,
    resourceTimer := 0, hasResourceManager := hasRM }

/-- Squared Euclidean distance between two points; the source computes
`((x1 - x2) ** 2 + (y1 - y2) ** 2) ** 0.5` and compares the root against
constant radii, which the embedding does in squared form. -/
def sqDist (x1 y1 x2 y2 : ℚ) : ℚ :=
  (x1 - x2) ^ 2 + (y1 - y2) ^ 2

/-- Exact real-arithmetic equivalent of `Real.sqrt d2 < c` for `0 ≤ d2`:
the root is nonnegative, so the comparison holds iff `0 < c` and `d2 < c^2`. -/
def sqrtLt (d2 c : ℚ) : Bool :=
  decide (0 < c) && decide (d2 < c ^ 2)

/-- Exact real-arithmetic equivalent of `Real.sqrt d2 ≤ c` for `0 ≤ d2`. -/
def sqrtLe (d2 c : ℚ) : Bool :=
  decide (0 ≤ c) && decide (d2 ≤ c ^ 2)

/-- Exact real-arithmetic equivalent of `Real.sqrt d2 > c` for `0 ≤ d2`. -/
def sqrtGt (d2 c : ℚ) : Bool :=
  decide (c < 0) || decide (c ^ 2 < d2)

/-- Contiguous-sublist test on character lists: Python's `pat in s`. -/
def listContains (pat : List Char) : List Char → Bool
  | [] => pat.isEmpty
  | c :: t => List.isPrefixOf pat (c :: t) || listContains pat t

/-- Python's substring operator `pat in s` on strings. -/
def strContains (s pat : String) : Bool :=
  listContains pat.toList s.toList

/-- Python's `s.lower()` for the ASCII building-type names the game uses,
as a character list (`Char.toLower` lowers exactly the ASCII uppercase range). -/
def strLower (s : String) : List Char :=
  s.toList.map Char.toLower

/-- `Unit.update`, building-hostility rule (`entities.py` lines 218-225):
a building is hostile to a player unit iff `"enemy"` occurs in the lowercased
type name, and to an enemy unit iff it does not. -/
def isEnemyBuilding (team : Team) (buildingType : String) : Bool :=
  match team with
  | .player => listContains "enemy".toList (strLower buildingType)
  | .enemy => !listContains "enemy".toList (strLower buildingType)

/-- `Unit.update`, unit-combat condition (`entities.py` lines 205-208):
the other unit is on a different team and within the local melee radius
`attack_range = 30` (strict `dist < 30`, embedded squared). -/
def hitsUnit (u o : UnitState) : Bool :=
  decide (o.team ≠ u.team) && sqrtLt (sqDist u.x u.y o.x o.y) 30

/-- Effect of the unit-combat scan on the roster (`entities.py` line 209):
every hit opponent loses `self.attack_damage * 0.1`.  The hit condition reads
only teams and positions, which the scan never mutates, so mapping over the
list is equivalent to the source's in-place loop. -/
def unitCombatOthers (u : UnitState) (others : List UnitState) : List UnitState :=
  others.map fun o =>
    if hitsUnit u o then { o with health := o.health - u.attackDamage * (1 / 10) } else o

/-- Effect of the unit-combat scan on the unit's own health (`entities.py`
line 210): for every hit opponent, self loses `other.attack_damage * 0.05`. -/
def unitCombatSelfHealth (u : UnitState) (others : List UnitState) : ℚ :=
  others.foldl (fun h o => if hitsUnit u o then h - o.attackDamage * (1 / 20) else h) u.health

/-- `did_attack_unit` flag (`entities.py` lines 204-212). -/
def didAttackUnit (u : UnitState) (others : List UnitState) : Bool :=
  others.any (hitsUnit u)

/-- `Unit.update`, building-combat condition (`entities.py` lines 226-232):
the building is hostile and the closest point of its axis-aligned rectangle
(per-axis clamp of the unit's position) is within `unit_radius = 16`
(`dist <= 16`, embedded squared). -/
def hitsBuilding (u : UnitState) (b : BuildingState) : Bool :=
  isEnemyBuilding u.team b.buildingType &&
    sqrtLe (sqDist u.x u.y (min (max u.x b.x) (b.x + b.width))
                           (min (max u.y b.y) (b.y + b.height))) 16

/-- Effect of the building-combat scan (`entities.py` line 233): every hit
building loses `self.attack_damage * 0.08`, with no lower clamp. -/
def buildingCombat (u : UnitState) (bs : List BuildingState) : List BuildingState :=
  bs.map fun b =>
    if hitsBuilding u b then { b with health := b.health - u.attackDamage * (2 / 25) } else b

/-- `did_attack_building` flag (`entities.py` lines 216-235). -/
def didAttackBuilding (u : UnitState) (bs : List BuildingState) : Bool :=
  bs.any (hitsBuilding u)

/-- Movement collision test against other units (`entities.py` lines 247-253):
the candidate next position is rejected if within `min_dist = 28` of any
other unit (strict, embedded squared). -/
def blockedByUnit (nx ny : ℚ) (others : List UnitState) : Bool :=
  others.any fun o => sqrtLt (sqDist nx ny o.x o.y) 28

/-- Movement collision test against buildings (`entities.py` lines 255-265):
closest-point-on-rectangle distance below `unit_radius = 16` (strict,
embedded squared). -/
def blockedByBuilding (nx ny : ℚ) (bs : List BuildingState) : Bool :=
  bs.any fun b =>
    sqrtLt (sqDist nx ny (min (max nx b.x) (b.x + b.width))
                         (min (max ny b.y) (b.y + b.height))) 16

/-- The full blocked test for a candidate position (`entities.py` lines 245-265). -/
def blockedAt (nx ny : ℚ) (others : List UnitState) (bs : List BuildingState) : Bool :=
  blockedByUnit nx ny others || blockedByBuilding nx ny bs

/-- Result of one `Unit.update` call: the unit's own new state plus the
roster and building list whose healths the call may have mutated in place. -/
structure UpdateResult where
  self : UnitState
  others : List UnitState
  buildings : List BuildingState
deriving DecidableEq, Repr

/-- `Unit.update` (`entities.py` lines 198-274), with `others` the roster of
all live units except this one (the source iterates `all_units` and skips
`self` by identity) and `bs` the `all_buildings` context set by the driver.

Order of phases as in the source: unit combat, building combat, movement
(only when a destination is set and no combat event occurred), then the
clamp `self.health = max(0, self.health)`.  The movement step divides by
`Rat.sqrt d2`, the stand-in for the real square root (exact on perfect
squares; see the file comment). -/
def UnitState.update (u : UnitState) (others : List UnitState) (bs : List BuildingState) :
    UpdateResult :=
  let dau := didAttackUnit u others
  let others1 := unitCombatOthers u others
  let h1 := unitCombatSelfHealth u others
  let t1 : Option (ℚ × ℚ) := if dau then none else u.targetPos
  let dab := didAttackBuilding u bs
  let bs1 := buildingCombat u bs
  let t2 : Option (ℚ × ℚ) := if dab then none else t1
  let moved : ℚ × ℚ × Option (ℚ × ℚ) :=
    match t2 with
    | none => (u.x, u.y, none)
    | some tp =>
      if dau || dab then (u.x, u.y, some tp)
      else
        let dx := tp.1 - u.x
        let dy := tp.2 - u.y
        let d2 := dx ^ 2 + dy ^ 2
        if sqrtGt d2 u.speed then
          let dist := Rat.sqrt d2
          let nx := u.x + dx / dist * u.speed
          let ny := u.y + dy / dist * u.speed
          if blockedAt nx ny others1 bs1 then (u.x, u.y, none)
          else (nx, ny, some tp)
        else (u.x, u.y, none)
  let self1 : UnitState :=
    { u with x := moved.1, y := moved.2.1, health := max 0 h1, targetPos := moved.2.2 }
  { self := self1, others := others1, buildings := bs1 }

/-! ### The `Entity` base class and its screen-position cache
(`entities.py` lines 10-35).  The dict `_screen_pos_cache` is modelled as an
association list keyed by the zoom level; `get_screen_pos` both returns the
point and (on a miss) inserts it, so it is embedded as returning the point
together with the possibly-extended entity state. -/

/-- `Entity` state relevant to `get_screen_pos`: current grid position,
the base screen position computed once in `__init__`, and the per-zoom cache. -/
structure EntityView where
  x : ℚ
  y : ℚ
  baseScreenX : ℚ
  baseScreenY : ℚ
  cache : List (ℚ × (ℚ × ℚ))
deriving DecidableEq, Repr

/-- `Entity.__init__` (`entities.py` lines 11-23): records the position and
fixes `base_screen_x = (x - y) * 32`, `base_screen_y = (x + y) * 16`;
the cache starts empty. -/
def EntityView.mk0 (x y : ℚ) : EntityView :=
  { x := x, y := y, baseScreenX := (x - y) * 32, baseScreenY := (x + y) * 16, cache := [] }

/-- `Entity.get_screen_pos` (`entities.py` lines 25-35): return the cached
point for this zoom if present, otherwise scale the base screen position by
the zoom, cache it and return it. -/
def EntityView.get_screen_pos (e : EntityView) (zoom : ℚ) : (ℚ × ℚ) × EntityView :=
  match e.cache.find? (fun p => decide (p.1 = zoom)) with
  | some p => (p.2, e)
  | none =>
    let pos := (e.baseScreenX * zoom, e.baseScreenY * zoom)
    (pos, { e with cache := (zoom, pos) :: e.cache })

/-- Direct assignment to an entity's position, as the driver does to the
placement preview (`engine.py` lines 566-573: `self.placement_preview.x =
tile.x; self.placement_preview.y = tile.y`).  Only `x` and `y` change: the
source updates neither the base screen position nor the cache. -/
def EntityView.setPos (e : EntityView) (x y : ℚ) : EntityView :=
  { e with x := x, y := y }

/-- `Unit.get_screen_pos` (`entities.py` lines 166-168) overrides the base
class: units return their pixel position scaled by the zoom, with no cache. -/
def unitScreenPos (u : UnitState) (zoom : ℚ) : ℚ × ℚ :=
  (u.x * zoom, u.y * zoom)

/-! ### The spatial map (`map.py`). -/

/-- Terrain kinds (`map.py` lines 6-11). -/
inductive TileType where
  | grass
  | water
  | forest
  | mountain
  | dirt
deriving DecidableEq, Repr

/-- A map tile (`map.py` lines 13-26): grid coordinates, terrain, resource
amount, and the optional back-reference to an occupying building. -/
structure Tile where
  x : ℤ
  y : ℤ
  tileType : TileType
  resourceAmount : ℤ
  building : Option BuildingState
deriving DecidableEq, Repr

/-- The tile grid (`map.py` lines 76-81): `tiles` is a list of rows, indexed
`tiles[y][x]`.  Generated maps always hold `height` rows of `width` tiles. -/
structure GameMap where
  width : ℤ
  height : ℤ
  tiles : List (List Tile)
deriving Repr

/-- `GameMap.get_tile_at` (`map.py` lines 179-182): the tile at `(x, y)` when
`0 <= x < width` and `0 <= y < height`, `None` otherwise.  (On a generated
map the row and column lookups always succeed inside the bounds.) -/
def GameMap.get_tile_at (m : GameMap) (x y : ℤ) : Option Tile :=
  if 0 ≤ x ∧ x < m.width ∧ 0 ≤ y ∧ y < m.height then
    match m.tiles.get? y.toNat with
    | some row => row.get? x.toNat
    | none => none
  else none

/-- The per-tile test of `GameMap.can_build_at` (`map.py` line 205):
`not tile or tile.tile_type != TileType.GRASS or tile.building` rejects the
tile; a tile passes iff it exists, is grass and holds no building. -/
def tileFree (o : Option Tile) : Bool :=
  match o with
  | none => false
  | some t => decide (t.tileType = TileType.grass) && t.building.isNone

/-- `GameMap.can_build_at` (`map.py` lines 199-207): every tile covered by
the `w` by `h` rectangle starting at `(x, y)` must pass `tileFree`. -/
def GameMap.can_build_at (m : GameMap) (x y : ℤ) (w h : ℕ) : Bool :=
  (List.range h).all fun dy =>
    (List.range w).all fun dx =>
      tileFree (m.get_tile_at (x + dx) (y + dy))

/-- The isometric tile-to-world transform (`map.py` lines 21-23 and
`entities.py` lines 18-20): `wx = (tx - ty) * 32`, `wy = (tx + ty) * 16`. -/
def tileToWorld (tx ty : ℤ) : ℚ × ℚ :=
  (((tx : ℚ) - (ty : ℚ)) * 32, ((tx : ℚ) + (ty : ℚ)) * 16)

/-- Python's `int()` on a float: truncation toward zero. -/
def pyInt (q : ℚ) : ℤ :=
  if q < 0 then ⌈q⌉ else ⌊q⌋

/-- The coordinate part of `GameMap.get_tile_at_screen_pos` (`map.py` lines
184-192): subtract the camera offset, divide by the zoom, then invert the
isometric transform with `tile_x = int((x/32 + y/16)/2)`,
`tile_y = int((y/16 - x/32)/2)`. -/
def screenToTile (sx sy zoom camX camY : ℚ) : ℤ × ℤ :=
  let x := (sx - camX) / zoom
  let y := (sy - camY) / zoom
  (pyInt ((x / 32 + y / 16) / 2), pyInt ((y / 16 - x / 32) / 2))

/-- `GameMap.get_tile_at_screen_pos` (`map.py` lines 184-197): the converted
coordinates looked up with `get_tile_at`. -/
def GameMap.get_tile_at_screen_pos (m : GameMap) (sx sy zoom camX camY : ℚ) : Option Tile :=
  let tc := screenToTile sx sy zoom camX camY
  m.get_tile_at tc.1 tc.2

/-! ### Driver-level steps (`engine.py`). -/

/-- A living enemy swordsman, the filter of the win condition
(`engine.py` line 577). -/
def isLivingEnemySwordsman (u : UnitState) : Bool :=
  decide (u.unitType = "Swordsman") && decide (u.team = Team.enemy) && decide (0 < u.health)

/-- The per-tick win-condition check (`engine.py` lines 575-579): only when
the flag is not yet set, the roster is filtered for living enemy swordsmen,
and the flag becomes true when none remain. -/
def winCheck (shown : Bool) (units : List UnitState) : Bool :=
  if shown = false then
    if (units.filter isLivingEnemySwordsman).length = 0 then true else shown
  else shown

/-- The driver's removal pass for buildings (`engine.py` lines 536-539 and
553-563): buildings whose health is `<= 0` are collected during the update
loop and removed from the roster afterwards. -/
def removeDeadBuildings (bs : List BuildingState) : List BuildingState :=
  bs.filter fun b => !decide (b.health ≤ 0)

/-- Resource kinds (`resources.py` lines 4-8). -/
inductive ResourceType where
  | gold
  | wood
  | stone
  | food
deriving DecidableEq, Repr

/-- The shared stockpile (`resources.py` lines 10-17). -/
structure ResourceManager where
  gold : ℤ
  wood : ℤ
  stone : ℤ
  food : ℤ
deriving DecidableEq, Repr

/-- `ResourceManager.add_resource` (`resources.py` lines 26-27). -/
def ResourceManager.add_resource (rm : ResourceManager) (t : ResourceType) (amount : ℤ) :
    ResourceManager :=
  match t with
  | .gold => { rm with gold := rm.gold + amount }
  | .wood => { rm with wood := rm.wood + amount }
  | .stone => { rm with stone := rm.stone + amount }
  | .food => { rm with food := rm.food + amount }

/-- `Building.update` (`entities.py` lines 104-124): the three harvesting
types accumulate `dt` on their timer when a resource manager is attached;
at 30 the associated resource is credited and the timer resets.  No branch
touches `health`. -/
def BuildingState.update (b : BuildingState) (dt : ℚ) (rm : ResourceManager) :
    BuildingState × ResourceManager :=
  if b.buildingType = "Woodcutter" ∧ b.hasResourceManager = true then
    let timer := b.resourceTimer + dt
    if 30 ≤ timer then ({ b with resourceTimer := 0 }, rm.add_resource .wood 10)
    else ({ b with resourceTimer := timer }, rm)
  else if b.buildingType = "Quarry" ∧ b.hasResourceManager = true then
    let timer := b.resourceTimer + dt
    if 30 ≤ timer then ({ b with resourceTimer := 0 }, rm.add_resource .stone 10)
    else ({ b with resourceTimer := timer }, rm)
  else if b.buildingType = "Farm" ∧ b.hasResourceManager = true then
    let timer := b.resourceTimer + dt
    if 30 ≤ timer then ({ b with resourceTimer := 0 }, rm.add_resource .food 10)
    else ({ b with resourceTimer := timer }, rm)
  else (b, rm)

/-! ### Concrete instances used by the claim theorems -/

/-- A player swordsman at the origin one unit away from its destination:
distance 1 is below the per-tick speed 2. -/
def c1Unit : UnitState :=
  { UnitState.mk0 0 0 "Swordsman" Team.player with targetPos := some (1, 0) }

/-- A unit seeking (30, 40) from the origin: distance 50, one step lands at
(1.2, 1.6). -/
def c3U : UnitState :=
  { UnitState.mk0 0 0 "Swordsman" Team.player with targetPos := some (30, 40) }

/-- A same-team unit sitting exactly on the candidate next position: it does
not trigger combat but blocks the move (separation 0 < 28). -/
def c3B : UnitState := UnitState.mk0 (6 / 5) (8 / 5) "Swordsman" Team.player

/-- A player swordsman at the origin, all constructor defaults. -/
def c2U : UnitState := UnitState.mk0 0 0 "Swordsman" Team.player

/-- An enemy swordsman 10 world units away: inside the melee radius 30. -/
def c2V : UnitState := UnitState.mk0 10 0 "Swordsman" Team.enemy

/-- A player unit 10 world units from the edge of an enemy stonekeep. -/
def c4U : UnitState := UnitState.mk0 0 0 "Swordsman" Team.player

/-- An enemy stonekeep whose rectangle starts 10 units from the unit. -/
def c4Keep : BuildingState := BuildingState.mk0 10 0 "EnemyStonekeep" false

/-- One driver tick over a roster of exactly two units and a building list
(`engine.py` lines 525-541): the first unit is updated against the full
roster, then the second against the roster as the first update left it (the
source mutates the shared objects in place); the returned triple holds both
units' end-of-tick states and the building list. -/
def tickPair (s : UnitState × UnitState × List BuildingState) :
    UnitState × UnitState × List BuildingState :=
  let r1 := s.1.update [s.2.1] s.2.2
  let r2 := s.2.1.update [r1.self] r1.buildings
  (r2.others.headD r1.self, r2.self, r2.buildings)

/-- A player swordsman in contact with the demo stonekeep's left edge. -/
def c10A : UnitState := UnitState.mk0 190 190 "Swordsman" Team.player

/-- A second player swordsman in contact with the stonekeep's right edge. -/
def c10B : UnitState := UnitState.mk0 340 190 "Swordsman" Team.player

/-- The demo enemy stonekeep (rectangle [200, 328] x [200, 328]) at a given
health. -/
def c10Keep (h : ℚ) : BuildingState :=
  { BuildingState.mk0 200 200 "EnemyStonekeep" false with health := h }

/-- A unit with health 5, for the clamp scenario of C9. -/
def c9Unit : UnitState :=
  { UnitState.mk0 0 0 "Swordsman" Team.player with health := 5 }

/-- An enemy in melee range whose attack damage inflicts 1000 on its
opponents per update (`self.health -= other.attack_damage * 0.05`). -/
def c9Foe : UnitState :=
  { UnitState.mk0 10 0 "Swordsman" Team.enemy with attackDamage := 20000 }

/-! ## Helper lemmas -/

/-- Python's `int()` is the identity on integers. -/
theorem pyInt_intCast (n : ℤ) : pyInt (n : ℚ) = n := by
  unfold pyInt
  split_ifs <;> simp

/-- A tile passes the `can_build_at` per-tile test iff it exists, is grass
and holds no building. -/
theorem tileFree_iff (o : Option Tile) :
    tileFree o = true ↔
      ∃ t, o = some t ∧ t.tileType = TileType.grass ∧ t.building = none := by
  cases o <;> simp [tileFree, Option.isNone_iff_eq_none]

/-- A successful `get_tile_at` lookup implies the queried coordinates are
within the map bounds. -/
theorem get_tile_at_bounds {m : GameMap} {x y : ℤ} {t : Tile}
    (h : m.get_tile_at x y = some t) :
    0 ≤ x ∧ x < m.width ∧ 0 ≤ y ∧ y < m.height := by
  unfold GameMap.get_tile_at at h
  split at h
  · assumption
  · exact absurd h (by simp)

/-- The self-health clamp at the end of `Unit.update` keeps the unit's own
health nonnegative, whatever happened before it. -/
theorem update_self_health_nonneg (u : UnitState) (others : List UnitState)
    (bs : List BuildingState) : 0 ≤ (u.update others bs).self.health := by
  simp only [UnitState.update]
  exact le_max_left 0 _

/-! ## Claims -/

/-- C6: converting integer tile coordinates to world coordinates with the
isometric transform `wx = (tx - ty) * 32`, `wy = (tx + ty) * 16` and applying
the screen-to-tile inverse at zoom 1 and camera offset (0, 0) returns exactly
the original tile coordinates. -/
theorem screenToTile_tileToWorld (tx ty : ℤ) :
    screenToTile (tileToWorld tx ty).1 (tileToWorld tx ty).2 1 0 0 = (tx, ty) := by
  simp only [screenToTile, tileToWorld]
  have h1 : ((((tx : ℚ) - ty) * 32 - 0) / 1 / 32 + (((tx : ℚ) + ty) * 16 - 0) / 1 / 16) / 2
      = ((tx : ℤ) : ℚ) := by ring
  have h2 : ((((tx : ℚ) + ty) * 16 - 0) / 1 / 16 - (((tx : ℚ) - ty) * 32 - 0) / 1 / 32) / 2
      = ((ty : ℤ) : ℚ) := by ring
  rw [h1, h2, pyInt_intCast, pyInt_intCast]

/-- C7: `can_build_at` returns true iff every tile covered by the `w` by `h`
rectangle starting at `(x, y)` is in-bounds, has terrain GRASS and carries no
building reference. -/
theorem can_build_at_iff (m : GameMap) (x y : ℤ) (w h : ℕ) :
    m.can_build_at x y w h = true ↔
      ∀ dx dy : ℕ, dx < w → dy < h →
        (0 ≤ x + dx ∧ x + dx < m.width ∧ 0 ≤ y + dy ∧ y + dy < m.height) ∧
        ∃ t : Tile, m.get_tile_at (x + dx) (y + dy) = some t ∧
          t.tileType = TileType.grass ∧ t.building = none := by
  unfold GameMap.can_build_at
  simp only [List.all_eq_true, List.mem_range]
  constructor
  · intro H dx dy hdx hdy
    have h2 := H dy hdy dx hdx
    rcases (tileFree_iff _).1 h2 with ⟨t, ht, hg, hb⟩
    exact ⟨get_tile_at_bounds ht, t, ht, hg, hb⟩
  · intro H dy hdy dx hdx
    rcases H dx dy hdx hdy with ⟨_, t, ht, hg, hb⟩
    exact (tileFree_iff _).2 ⟨t, ht, hg, hb⟩

/-- C1 is false on the code: with no combat and distance-to-destination (1)
below the speed (2), `Unit.update` clears the destination but leaves the
position unchanged at (0, 0) instead of snapping it to the destination
(`entities.py` lines 271-272 only assign `self.target_pos = None`). -/
theorem c1_update_does_not_snap :
    sqrtLe (sqDist c1Unit.x c1Unit.y 1 0) c1Unit.speed = true ∧
    didAttackUnit c1Unit [] = false ∧
    didAttackBuilding c1Unit [] = false ∧
    (c1Unit.update [] []).self.targetPos = none ∧
    ¬ ((c1Unit.update [] []).self.x, (c1Unit.update [] []).self.y) = ((1 : ℚ), (0 : ℚ)) := by
  norm_num [c1Unit, UnitState.mk0, UnitState.update, didAttackUnit, didAttackBuilding,
    unitCombatOthers, unitCombatSelfHealth, buildingCombat, sqrtLe, sqrtGt, sqDist,
    Prod.ext_iff]

/-- C1 (amended): with a destination set, no combat event and
distance-to-destination at most the speed, one `Unit.update` unsets the
destination and leaves the position unchanged (it equals the destination
only when the unit is already there). -/
theorem update_arrival_clears_target (u : UnitState) (others : List UnitState)
    (bs : List BuildingState) (tp : ℚ × ℚ)
    (ht : u.targetPos = some tp)
    (hnu : didAttackUnit u others = false)
    (hnb : didAttackBuilding u bs = false)
    (hle : sqrtLe (sqDist u.x u.y tp.1 tp.2) u.speed = true) :
    (u.update others bs).self.targetPos = none ∧
    (u.update others bs).self.x = u.x ∧ (u.update others bs).self.y = u.y := by
  simp only [sqrtLe, Bool.and_eq_true, decide_eq_true_eq] at hle
  have hd2 : (tp.1 - u.x) ^ 2 + (tp.2 - u.y) ^ 2 = sqDist u.x u.y tp.1 tp.2 := by
    unfold sqDist; ring
  have hgt : sqrtGt ((tp.1 - u.x) ^ 2 + (tp.2 - u.y) ^ 2) u.speed = false := by
    simp only [sqrtGt, Bool.or_eq_false_iff, decide_eq_false_iff_not, not_lt, hd2]
    exact ⟨hle.1, hle.2⟩
  simp [UnitState.update, ht, hnu, hnb, hgt]

/-- Witness for the amended C1 at the concrete unit of the counterexample. -/
theorem update_arrival_clears_target_witness :
    (c1Unit.update [] []).self.targetPos = none ∧
    (c1Unit.update [] []).self.x = c1Unit.x ∧ (c1Unit.update [] []).self.y = c1Unit.y :=
  update_arrival_clears_target c1Unit [] [] (1, 0)
    (by norm_num [c1Unit, UnitState.mk0])
    (by norm_num [didAttackUnit])
    (by norm_num [didAttackBuilding])
    (by norm_num [c1Unit, UnitState.mk0, sqrtLe, sqDist])

/-- Squared distance is symmetric. -/
theorem sqDist_comm (x1 y1 x2 y2 : ℚ) : sqDist x1 y1 x2 y2 = sqDist x2 y2 x1 y1 := by
  unfold sqDist; ring

/-- One `Unit.update` against a roster holding exactly one opponent that the
melee scan hits: the opponent loses `attack_damage * 0.1`, self loses the
opponent's `attack_damage * 0.05` (then clamps), the destination is cleared
and no movement happens. -/
theorem update_single_melee (u v : UnitState) (bs : List BuildingState)
    (hhit : hitsUnit u v = true) :
    u.update [v] bs =
      { self := { u with
                    health := max 0 (u.health - v.attackDamage * (1 / 20))
                    targetPos := none },
        others := [{ v with health := v.health - u.attackDamage * (1 / 10) }],
        buildings := buildingCombat u bs } := by
  simp [UnitState.update, didAttackUnit, unitCombatOthers, unitCombatSelfHealth, hhit]

/-- C2: when unit `u` is updated against a roster holding an opposing unit
`v` within the melee radius 30, `v` loses `u.attack_damage * 0.1`, `u` loses
`v.attack_damage * 0.05` and `u`'s destination is cleared; completing the
tick by updating `v` (against the roster as `u`'s update left it) makes both
sides lose health that tick, each side's total loss `0.15` times the
opponent's attack damage only.  The clamp hypotheses keep the end-of-update
health clamps inactive, as in any fight that ends with both sides alive. -/
theorem melee_exchange (u v : UnitState) (bs : List BuildingState)
    (hteam : v.team ≠ u.team)
    (hdist : sqrtLt (sqDist u.x u.y v.x v.y) 30 = true)
    (hu : 0 ≤ u.health - v.attackDamage * (1 / 20))
    (hv : 0 ≤ v.health - u.attackDamage * (3 / 20))
    (hadu : 0 < u.attackDamage) (hadv : 0 < v.attackDamage) :
    (∀ (os : List UnitState) (i : ℕ) (w : UnitState),
        os[i]? = some w → hitsUnit u w = true →
        (u.update os bs).others[i]?
          = some { w with health := w.health - u.attackDamage * (1 / 10) }) ∧
    (∀ os : List UnitState, didAttackUnit u os = true →
        (u.update os bs).self.targetPos = none) ∧
    (u.update [v] bs).others
        = [{ v with health := v.health - u.attackDamage * (1 / 10) }] ∧
    (u.update [v] bs).self.health = u.health - v.attackDamage * (1 / 20) ∧
    (u.update [v] bs).self.targetPos = none ∧
    (((u.update [v] bs).others.headD v).update
        [(u.update [v] bs).self] (u.update [v] bs).buildings).self.health
        = v.health - u.attackDamage * (3 / 20) ∧
    ((((u.update [v] bs).others.headD v).update
        [(u.update [v] bs).self] (u.update [v] bs).buildings).others.headD u).health
        = u.health - v.attackDamage * (3 / 20) ∧
    (((u.update [v] bs).others.headD v).update
        [(u.update [v] bs).self] (u.update [v] bs).buildings).self.health < v.health ∧
    ((((u.update [v] bs).others.headD v).update
        [(u.update [v] bs).self] (u.update [v] bs).buildings).others.headD u).health
        < u.health := by
  have hgen1 : ∀ (os : List UnitState) (i : ℕ) (w : UnitState),
      os[i]? = some w → hitsUnit u w = true →
      (u.update os bs).others[i]?
        = some { w with health := w.health - u.attackDamage * (1 / 10) } := by
    intro os i w hw hhw
    have hoo : (u.update os bs).others = unitCombatOthers u os := rfl
    rw [hoo]
    unfold unitCombatOthers
    rw [List.getElem?_map, hw]
    simp [hhw]
  have hgen2 : ∀ os : List UnitState, didAttackUnit u os = true →
      (u.update os bs).self.targetPos = none := by
    intro os hos
    simp [UnitState.update, hos]
  refine ⟨hgen1, hgen2, ?_⟩
  have hhit : hitsUnit u v = true := by
    simp [hitsUnit, hteam, hdist]
  have h1 := update_single_melee u v bs hhit
  have hhit2 : hitsUnit
      ({ v with health := v.health - u.attackDamage * (1 / 10) })
      ({ u with
           health := max 0 (u.health - v.attackDamage * (1 / 20))
           targetPos := none }) = true := by
    simp [hitsUnit, Ne.symm hteam, sqDist_comm v.x v.y u.x u.y, hdist]
  have h2 := update_single_melee
      ({ v with health := v.health - u.attackDamage * (1 / 10) })
      ({ u with
           health := max 0 (u.health - v.attackDamage * (1 / 20))
           targetPos := none })
      (buildingCombat u bs) hhit2
  rw [h1]
  simp only [List.headD_cons, h2]
  have e1 : u.health - v.attackDamage * (1 / 20) - v.attackDamage * (1 / 10)
      = u.health - v.attackDamage * (3 / 20) := by ring
  have e2 : v.health - u.attackDamage * (1 / 10) - u.attackDamage * (1 / 20)
      = v.health - u.attackDamage * (3 / 20) := by ring
  have hcu : max 0 (u.health - v.attackDamage * (1 / 20)) = u.health - v.attackDamage * (1 / 20) :=
    max_eq_right hu
  simp only [hcu]
  have hcv : max 0 (v.health - u.attackDamage * (1 / 10) - u.attackDamage * (1 / 20))
      = v.health - u.attackDamage * (3 / 20) := by
    rw [e2]; exact max_eq_right hv
  refine ⟨trivial, trivial, trivial, hcv, e1, ?_, ?_⟩
  · rw [hcv]
    have h3 : 0 < u.attackDamage * (3 / 20) := by positivity
    linarith
  · have h4 : 0 < v.attackDamage * (1 / 20) := by positivity
    have h5 : 0 < v.attackDamage * (1 / 10) := by positivity
    linarith

/-- When the melee scan hits nobody, the roster is left unchanged. -/
theorem unitCombatOthers_of_no_attack (u : UnitState) (others : List UnitState)
    (h : didAttackUnit u others = false) : unitCombatOthers u others = others := by
  unfold didAttackUnit at h
  rw [List.any_eq_false] at h
  unfold unitCombatOthers
  rw [List.map_congr_left fun o ho => if_neg (by simpa using h o ho)]
  exact List.map_id _

/-- When the building scan hits nothing, the building list is left unchanged. -/
theorem buildingCombat_of_no_attack (u : UnitState) (bs : List BuildingState)
    (h : didAttackBuilding u bs = false) : buildingCombat u bs = bs := by
  unfold didAttackBuilding at h
  rw [List.any_eq_false] at h
  unfold buildingCombat
  rw [List.map_congr_left fun b hb => if_neg (by simpa using h b hb)]
  exact List.map_id _

/-- C3: with a destination set, no combat event and distance to destination
above the speed, the blocked test is evaluated at the candidate next position
(one step of length `speed` toward the destination) against every other unit
(radius 28) and every building (closest-point radius 16); when it rejects,
the position is unchanged this tick and the destination is cleared, and when
it accepts, the unit moves to exactly that candidate and keeps the
destination.  The candidate is written with `Rat.sqrt`, the embedding's
stand-in for the real square root of the squared distance. -/
theorem move_blocked_abandons_target (u : UnitState) (others : List UnitState)
    (bs : List BuildingState) (tp : ℚ × ℚ)
    (ht : u.targetPos = some tp)
    (hnu : didAttackUnit u others = false)
    (hnb : didAttackBuilding u bs = false)
    (hgt : sqrtGt ((tp.1 - u.x) ^ 2 + (tp.2 - u.y) ^ 2) u.speed = true) :
    (∀ (nx ny : ℚ) (os : List UnitState) (bs2 : List BuildingState),
      blockedAt nx ny os bs2 = true ↔
        ((∃ o ∈ os, sqDist nx ny o.x o.y < 28 ^ 2) ∨
         (∃ b ∈ bs2, sqDist nx ny (min (max nx b.x) (b.x + b.width))
                       (min (max ny b.y) (b.y + b.height)) < 16 ^ 2))) ∧
    (blockedAt
        (u.x + (tp.1 - u.x) / Rat.sqrt ((tp.1 - u.x) ^ 2 + (tp.2 - u.y) ^ 2) * u.speed)
        (u.y + (tp.2 - u.y) / Rat.sqrt ((tp.1 - u.x) ^ 2 + (tp.2 - u.y) ^ 2) * u.speed)
        others bs = true →
      (u.update others bs).self.x = u.x ∧ (u.update others bs).self.y = u.y ∧
      (u.update others bs).self.targetPos = none) ∧
    (blockedAt
        (u.x + (tp.1 - u.x) / Rat.sqrt ((tp.1 - u.x) ^ 2 + (tp.2 - u.y) ^ 2) * u.speed)
        (u.y + (tp.2 - u.y) / Rat.sqrt ((tp.1 - u.x) ^ 2 + (tp.2 - u.y) ^ 2) * u.speed)
        others bs = false →
      (u.update others bs).self.x
          = u.x + (tp.1 - u.x) / Rat.sqrt ((tp.1 - u.x) ^ 2 + (tp.2 - u.y) ^ 2) * u.speed ∧
      (u.update others bs).self.y
          = u.y + (tp.2 - u.y) / Rat.sqrt ((tp.1 - u.x) ^ 2 + (tp.2 - u.y) ^ 2) * u.speed ∧
      (u.update others bs).self.targetPos = some tp) := by
  have ho := unitCombatOthers_of_no_attack u others hnu
  have hb := buildingCombat_of_no_attack u bs hnb
  refine ⟨?_, ?_, ?_⟩
  · intro nx ny os bs2
    simp [blockedAt, blockedByUnit, blockedByBuilding, sqrtLt, sqDist]
  · intro hblk
    simp [UnitState.update, ht, hnu, hnb, hgt, ho, hb, hblk]
  · intro hblk
    simp [UnitState.update, ht, hnu, hnb, hgt, ho, hb, hblk]

/-- Witness for the blocked-movement theorem: the blocked branch at the
concrete configuration. -/
theorem move_blocked_abandons_target_witness :
    (c3U.update [c3B] []).self.x = c3U.x ∧ (c3U.update [c3B] []).self.y = c3U.y ∧
    (c3U.update [c3B] []).self.targetPos = none :=
  (move_blocked_abandons_target c3U [c3B] [] (30, 40)
      (by simp [c3U, UnitState.mk0])
      (by simp [didAttackUnit, hitsUnit, c3U, c3B, UnitState.mk0])
      (by simp [didAttackBuilding])
      (by norm_num [sqrtGt, c3U, UnitState.mk0])).2.1
    (by
      have hs : Rat.sqrt (2500 : ℚ) = 50 := by
        rw [show (2500 : ℚ) = 50 * 50 by norm_num, Rat.sqrt_eq]
        norm_num
      norm_num [blockedAt, blockedByUnit, blockedByBuilding, sqrtLt, sqDist,
        c3U, c3B, UnitState.mk0, hs])

/-- Witness for the melee-exchange theorem at a concrete opposing pair in
melee range. -/
theorem melee_exchange_witness :
    (c2U.update [c2V] []).self.health = c2U.health - c2V.attackDamage * (1 / 20) ∧
    (c2U.update [c2V] []).self.targetPos = none ∧
    (((c2U.update [c2V] []).others.headD c2V).update
        [(c2U.update [c2V] []).self] (c2U.update [c2V] []).buildings).self.health
        < c2V.health :=
  ⟨(melee_exchange c2U c2V []
      (by simp [c2U, c2V, UnitState.mk0])
      (by norm_num [sqrtLt, sqDist, c2U, c2V, UnitState.mk0])
      (by norm_num [c2U, c2V, UnitState.mk0])
      (by norm_num [c2U, c2V, UnitState.mk0])
      (by norm_num [c2U, c2V, UnitState.mk0])
      (by norm_num [c2U, c2V, UnitState.mk0])).2.2.2.1,
   (melee_exchange c2U c2V []
      (by simp [c2U, c2V, UnitState.mk0])
      (by norm_num [sqrtLt, sqDist, c2U, c2V, UnitState.mk0])
      (by norm_num [c2U, c2V, UnitState.mk0])
      (by norm_num [c2U, c2V, UnitState.mk0])
      (by norm_num [c2U, c2V, UnitState.mk0])
      (by norm_num [c2U, c2V, UnitState.mk0])).2.2.2.2.1,
   (melee_exchange c2U c2V []
      (by simp [c2U, c2V, UnitState.mk0])
      (by norm_num [sqrtLt, sqDist, c2U, c2V, UnitState.mk0])
      (by norm_num [c2U, c2V, UnitState.mk0])
      (by norm_num [c2U, c2V, UnitState.mk0])
      (by norm_num [c2U, c2V, UnitState.mk0])
      (by norm_num [c2U, c2V, UnitState.mk0])).2.2.2.2.2.2.2.1⟩

/-- C4: a building is hostile to a unit iff the unit is on the player team
and the lowercased type name contains `"enemy"`, or the unit is on the enemy
team and it does not; every hostile building whose axis-aligned rectangle
has its closest point (per-axis clamp of the unit's position) within the
contact radius 16 loses `attack_damage * 0.08` during the unit's update, and
the unit's destination is cleared. -/
theorem hostile_building_attacked (u : UnitState) (others : List UnitState)
    (bs : List BuildingState) (i : ℕ) (b : BuildingState)
    (hb : bs[i]? = some b)
    (hhost : (u.team = Team.player ∧
                listContains "enemy".toList (strLower b.buildingType) = true) ∨
             (u.team = Team.enemy ∧
                listContains "enemy".toList (strLower b.buildingType) = false))
    (hclose : sqDist u.x u.y (min (max u.x b.x) (b.x + b.width))
                (min (max u.y b.y) (b.y + b.height)) ≤ 16 ^ 2) :
    (∀ (t : Team) (s : String), isEnemyBuilding t s = true ↔
        ((t = Team.player ∧ listContains "enemy".toList (strLower s) = true) ∨
         (t = Team.enemy ∧ listContains "enemy".toList (strLower s) = false))) ∧
    (u.update others bs).buildings[i]?
        = some { b with health := b.health - u.attackDamage * (2 / 25) } ∧
    (u.update others bs).self.targetPos = none := by
  have hhit : hitsBuilding u b = true := by
    rcases hhost with ⟨hteq, hcon⟩ | ⟨hteq, hcon⟩ <;>
      simp [hitsBuilding, isEnemyBuilding, hteq, sqrtLe, hclose] <;>
      simpa using hcon
  have hdab : didAttackBuilding u bs = true := by
    unfold didAttackBuilding
    rw [List.any_eq_true]
    exact ⟨b, List.get?_mem (by rw [List.get?_eq_getElem?]; exact hb), hhit⟩
  refine ⟨?_, ?_, ?_⟩
  · intro t s
    cases t <;> simp [isEnemyBuilding]
  · have hbb : (u.update others bs).buildings = buildingCombat u bs := rfl
    rw [hbb]
    unfold buildingCombat
    rw [List.getElem?_map, hb]
    simp [hhit]
  · simp [UnitState.update, hdab]

/-- Witness for the hostile-building theorem at a concrete player unit in
contact with an enemy stonekeep. -/
theorem hostile_building_attacked_witness :
    (c4U.update [] [c4Keep]).buildings[0]?
        = some { c4Keep with health := c4Keep.health - c4U.attackDamage * (2 / 25) } ∧
    (c4U.update [] [c4Keep]).self.targetPos = none :=
  ⟨(hostile_building_attacked c4U [] [c4Keep] 0 c4Keep rfl
      (Or.inl ⟨rfl, by decide⟩)
      (by norm_num [sqDist, c4U, c4Keep, UnitState.mk0, BuildingState.mk0])).2.1,
   (hostile_building_attacked c4U [] [c4Keep] 0 c4Keep rfl
      (Or.inl ⟨rfl, by decide⟩)
      (by norm_num [sqDist, c4U, c4Keep, UnitState.mk0, BuildingState.mk0])).2.2⟩

/-- C5 is false on the code: construct an entity at (0, 0), call
`get_screen_pos` at zoom 1 (caching (0, 0)), move the entity to (5, 3) as
the driver does to the placement preview, and call `get_screen_pos` again:
the call after the position change returns the stale cached point (0, 0),
not the point ((5-3)*32*1, (5+3)*16*1) = (64, 128) derived from the current
world position — nothing in the source invalidates `_screen_pos_cache` (or
recomputes `base_screen_x`/`base_screen_y`) on a position change. -/
theorem c5_stale_cached_screen_pos :
    (((((EntityView.mk0 0 0).get_screen_pos 1).2.setPos 5 3).get_screen_pos 1).1
        = ((0 : ℚ), (0 : ℚ))) ∧
    ¬ (((((EntityView.mk0 0 0).get_screen_pos 1).2.setPos 5 3).get_screen_pos 1).1
        = ((((5 : ℚ) - 3) * 32) * 1, (((5 : ℚ) + 3) * 16) * 1)) := by
  norm_num [EntityView.mk0, EntityView.get_screen_pos, EntityView.setPos, Prod.ext_iff]

/-- C5 (amended): the per-zoom cache and the base screen coordinates of an
`Entity` are fixed at construction and never invalidated: after any position
change, `get_screen_pos` still returns the point derived from the
construction-time position (whether or not the zoom was cached before the
move), so it can be stale; only `Unit`, whose override computes directly
from the current position on every call and never consults the cache,
returns a point derived from the current position. -/
theorem entity_screen_pos_never_invalidated (x y x2 y2 z : ℚ) :
    ((((EntityView.mk0 x y).setPos x2 y2).get_screen_pos z).1
        = ((x - y) * 32 * z, (x + y) * 16 * z)) ∧
    (((((EntityView.mk0 x y).get_screen_pos z).2.setPos x2 y2).get_screen_pos z).1
        = ((x - y) * 32 * z, (x + y) * 16 * z)) ∧
    (∀ (u : UnitState) (zu : ℚ), unitScreenPos u zu = (u.x * zu, u.y * zu)) := by
  refine ⟨?_, ?_, fun u zu => rfl⟩ <;>
    simp [EntityView.mk0, EntityView.get_screen_pos, EntityView.setPos]

/-- C8: the won flag is a one-way latch across ticks: from a tick in which
it is true it stays true through any sequence of subsequent rosters (even
ones holding new living enemy swordsmen), and from false it becomes true
exactly in a tick whose roster holds no living enemy-team swordsman. -/
theorem win_flag_latch :
    (∀ rosters : List (List UnitState), rosters.foldl winCheck true = true) ∧
    (∀ units : List UnitState,
        winCheck false units = true ↔ ∀ u ∈ units, isLivingEnemySwordsman u = false) := by
  constructor
  · intro rosters
    induction rosters with
    | nil => rfl
    | cons r t ih =>
      have h1 : winCheck true r = true := by simp [winCheck]
      simpa [h1] using ih
  · intro units
    simp [winCheck, List.length_eq_zero, List.filter_eq_nil_iff]

/-- Each demo tick drains exactly 2 x 0.8 = 1.6 health from the stonekeep
and leaves both attackers unchanged. -/
theorem c10_tick (h : ℚ) :
    tickPair (c10A, c10B, [c10Keep h]) = (c10A, c10B, [c10Keep (h - 8 / 5)]) := by
  have hhost : isEnemyBuilding Team.player "EnemyStonekeep" = true := by decide
  norm_num [tickPair, UnitState.update, didAttackUnit, didAttackBuilding, hitsUnit,
    hitsBuilding, sqrtLt, sqrtLe, sqDist, unitCombatOthers, unitCombatSelfHealth,
    buildingCombat, c10A, c10B, c10Keep, UnitState.mk0, BuildingState.mk0, hhost,
    Prod.ext_iff]
  ring

/-- Closed form of the demo: after `k` ticks the stonekeep's health is
`100 - 1.6 k`, negative from tick 63 on. -/
theorem c10_iterate (k : ℕ) :
    (tickPair^[k]) (c10A, c10B, [c10Keep 100])
      = (c10A, c10B, [c10Keep (100 - (8 / 5) * k)]) := by
  induction k with
  | zero => norm_num
  | succ n ih =>
    rw [Function.iterate_succ_apply', ih, c10_tick]
    have e : 100 - (8 / 5 : ℚ) * n - 8 / 5 = 100 - (8 / 5) * (n + 1 : ℕ) := by
      push_cast; ring
    rw [e]

/-- C10: no operation bounds a building's health from below — `Building.update`
never changes health and a unit's building attack subtracts unconditionally —
so a building's health becomes strictly negative in a reachable state (two
swordsmen attacking a stonekeep from full health 100 drive it to -0.8 on
tick 63) and stays negative until the driver's removal pass removes the
building; unit health, in contrast, is clamped (see the health-clamp
theorem for C9). -/
theorem building_health_unclamped :
    (∀ (b : BuildingState) (dt : ℚ) (rm : ResourceManager),
        (b.update dt rm).1.health = b.health) ∧
    (∀ (u : UnitState) (b : BuildingState), hitsBuilding u b = true →
        buildingCombat u [b]
          = [{ b with health := b.health - u.attackDamage * (2 / 25) }]) ∧
    ((tickPair^[63]) (c10A, c10B, [c10Keep 100])).2.2 = [c10Keep (-4 / 5)] ∧
    (c10Keep (-4 / 5)).health < 0 ∧
    removeDeadBuildings ((tickPair^[63]) (c10A, c10B, [c10Keep 100])).2.2 = [] := by
  have h63 : ((tickPair^[63]) (c10A, c10B, [c10Keep 100])).2.2 = [c10Keep (-4 / 5)] := by
    rw [c10_iterate 63]
    norm_num
  refine ⟨?_, ?_, h63, by norm_num [c10Keep, BuildingState.mk0], ?_⟩
  · intro b dt rm
    simp only [BuildingState.update]
    split_ifs <;> rfl
  · intro u b hhit
    simp [buildingCombat, hhit]
  · rw [h63]
    norm_num [removeDeadBuildings, c10Keep, BuildingState.mk0]

/-- C9: a unit's own health is never negative immediately after its own
`Unit.update` returns, and a unit with health 5 that receives 1000 damage in
one update ends that update with health exactly 0. -/
theorem update_health_clamped :
    (∀ (u : UnitState) (others : List UnitState) (bs : List BuildingState),
      0 ≤ (u.update others bs).self.health) ∧
    (c9Unit.update [c9Foe] []).self.health = 0 := by
  refine ⟨fun u others bs => update_self_health_nonneg u others bs, ?_⟩
  have hne : (Team.enemy = Team.player) = False := by simp
  norm_num [c9Unit, c9Foe, UnitState.mk0, UnitState.update, didAttackUnit, didAttackBuilding,
    hitsUnit, unitCombatOthers, unitCombatSelfHealth, buildingCombat, sqrtLt, sqDist, hne]

end RTS

